import Mathlib

/-!
Shallow embedding of the pyservice lifecycle controller.

The Linux implementation (src/pyservice/linux.py) is a class `LinuxService`
whose methods mutate filesystem state (the control script under /etc/init.d
and the PID file under /var/run) and call OS primitives (os.kill, os.fork,
os.remove, open). We model that state explicitly as a `World`, OS outcomes as
oracle functions passed in, and each method as a function
`World → Outcome × World × List Event`, where the event list records the
externally visible actions in program order.

The Windows implementation (src/pyservice/windows.py) contributes only the
`SvcStop` handler's action sequence, modelled as a concrete trace.
-/

namespace Pyservice

/-- Python values returned by the lifecycle methods: booleans and `None`
(the default `installed()` hook ends in `pass`, i.e. returns `None`). -/
inductive PyVal
  | pyBool (b : Bool)
  | pyNone
  deriving DecidableEq

/-- Python truthiness of the values above (`None` is falsy). -/
def PyVal.truthy : PyVal → Bool
  | .pyBool b => b
  | .pyNone => false

/-- Result of calling a Python method: a normal return or an uncaught
exception carrying its message. -/
inductive Outcome
  | ok (v : PyVal)
  | raised (msg : String)
  deriving DecidableEq

/-- Externally visible actions, in program order. -/
inductive Event
  | printed (msg : String)
  /-- `os.remove(self.pid_file)` (linux.py:328) -/
  | removePid
  /-- `os.kill(pid, signal.SIGTERM)` with the current value of the
  `attempts` counter (linux.py:336) -/
  | kill (pid : Nat) (attempt : Nat)
  /-- `time.sleep(0.2)` recorded in milliseconds (linux.py:337) -/
  | sleepMs (ms : Nat)
  /-- writing the PID file in the daemon (linux.py:282) -/
  | writePid (pid : Nat)
  /-- writing the control script (linux.py:402) -/
  | writeScript
  /-- `os.chmod(self.control_script, st_mode | 0o111)` (linux.py:408) -/
  | chmodScript
  /-- `os.remove(self.control_script)` (linux.py:425) -/
  | removeScript
  /-- running the user callback via `self.started(user)` (linux.py:178) -/
  | ranCallback
  /-- windows.py `self.ReportServiceStatus(...)` -/
  | reportStatus (s : String)
  /-- windows.py `win32event.SetEvent(self.stop_event)` -/
  | setEvent
  /-- windows.py `self.stop_requested = True` -/
  | setStopRequested
  deriving DecidableEq

/-- Outcome of one `os.kill(pid, SIGTERM)` call as the except-clause of
`_stop` classifies it (linux.py:340-349): a normal return, an `OSError`
whose message contains "No such process", or any other `OSError`. -/
inductive KillResult
  | delivered
  | noSuchProcess
  | otherOSError
  deriving DecidableEq

/-- Outcome of one `os.fork()` call, seen from the process that goes on
daemonizing: either the fork succeeded (the parent exits via `sys.exit(0)`
and we continue as the child), or it raised `OSError`. -/
inductive ForkResult
  | child
  | failed (msg : String)
  deriving DecidableEq

/-- The control script written by `_install` (linux.py:370-408): a fixed
bash template with the user, the interpreter path and the service path
substituted in, made executable by the chmod that follows the write. -/
structure ScriptContent where
  user : String
  pythonPath : String
  servicePath : String
  executable : Bool
  deriving DecidableEq

/-- Filesystem and instance state a `LinuxService` reads and writes.
`controlScript` is the file at `/etc/init.d/<name>` (`none` = absent);
`pidFile` is the file at `/var/run/<name>.pid`: `none` = absent,
`some none` = present but its contents do not parse as an int,
`some (some pid)` = present and parsing to `pid`. `uid` is `os.getuid()`
and `stop_requested` the in-memory flag set by `_stop`. -/
structure World where
  controlScript : Option ScriptContent
  pidFile : Option (Option Nat)
  uid : Nat
  stop_requested : Bool
  deriving DecidableEq

/-- `is_installed` (linux.py:432-439): the control script exists. -/
def is_installed (w : World) : Bool :=
  w.controlScript.isSome

/-- `is_running` (linux.py:441-448): the PID file exists. -/
def is_running (w : World) : Bool :=
  w.pidFile.isSome

/-- The `while attempts < 5` loop of `_stop` (linux.py:332-353), with
`fuel = 5 - attempts` as the recursion measure. Each iteration calls
`os.kill(pid, SIGTERM)` then `time.sleep(0.2)` then increments `attempts`.
If `os.kill` raises, the loop is left through the except clause: an error
containing "No such process" returns `True`, any other `OSError` prints and
returns `False`, and the sleep of that iteration does not happen. Falling
out of the loop prints and returns `False` (linux.py:351-353). -/
def killLoopAux (kill : Nat → KillResult) (pid : Nat) : Nat → Nat → Bool × List Event
  | 0, _ =>
    (false, [Event.printed "* Unable to kill the process due to an unknown reason"])
  | fuel + 1, attempts =>
    match kill attempts with
    | .delivered =>
      let r := killLoopAux kill pid fuel (attempts + 1)
      (r.1, Event.kill pid attempts :: Event.sleepMs 200 :: r.2)
    | .noSuchProcess =>
      (true, [Event.kill pid attempts])
    | .otherOSError =>
      (false, [Event.kill pid attempts, Event.printed "* Unable to kill the process"])

/-- The kill loop entered with `attempts = 0` and budget 5. -/
def killLoop (kill : Nat → KillResult) (pid : Nat) : Bool × List Event :=
  killLoopAux kill pid 5 0

/-- `_stop` (linux.py:305-353). Sets `self.stop_requested = True`, opens the
PID file (outside any try: a missing file raises an uncaught `IOError`),
parses it (a parse failure is caught by the bare except and returns
`False`, leaving the file in place), removes the PID file, then runs the
kill loop. -/
def _stop (kill : Nat → KillResult) (w : World) : Outcome × World × List Event :=
  let w0 : World := { w with stop_requested := true }
  match w0.pidFile with
  | none => (.raised "IOError: No such file or directory", w0, [])
  | some none => (.ok (.pyBool false), w0, [Event.printed "* Unable to read PID file"])
  | some (some pid) =>
    let w1 : World := { w0 with pidFile := none }
    let r := killLoop kill pid
    (.ok (.pyBool r.1), w1, Event.removePid :: r.2)

/-- `stop` (linux.py:181-200): guard on `is_running`, print, delegate to
`_stop`, map a falsy result to `False`. -/
def stop (kill : Nat → KillResult) (w : World) : Outcome × World × List Event :=
  if is_running w then
    let r := _stop kill w
    let tr := Event.printed "* Stopping" :: r.2.2
    match r.1 with
    | .raised m => (.raised m, r.2.1, tr)
    | .ok v =>
      if v.truthy then (.ok v, r.2.1, tr) else (.ok (.pyBool false), r.2.1, tr)
  else
    (.ok (.pyBool false), w, [Event.printed "* Not running"])

/-- The message of the `RuntimeError` raised by `_install` and `_uninstall`
when the caller is not root (linux.py:366-367 and 420-421). -/
def privilegeMsg : String :=
  "RuntimeError: Insufficient privileges to install service, Please run with administrative rights."

/-- `_install` (linux.py:355-409). Raises `RuntimeError` when not root
(linux.py:365-367); otherwise builds the control script text from the user,
the interpreter path and the service path, writes it (the `open`/`write` is
not inside a try: an `IOError` propagates, modelled by the `writeOk`
oracle), chmods it executable, and returns `True`. -/
def _install (user pythonPath servicePath : String) (writeOk : Bool) (w : World) :
    Outcome × World × List Event :=
  if w.uid ≠ 0 then
    (.raised privilegeMsg, w, [])
  else if writeOk then
    let content : ScriptContent :=
      { user := user, pythonPath := pythonPath, servicePath := servicePath, executable := true }
    (.ok (.pyBool true), { w with controlScript := some content },
     [Event.writeScript, Event.chmodScript])
  else
    (.raised "IOError: control script write failed", w, [])

/-- `install` (linux.py:202-221): guard on `is_installed`, print, delegate
to `_install`, and on success return `self.installed()` — the default
`installed` hook (linux.py:475-479) is `pass`, so the value returned is
`None`, not `True`. -/
def install (user pythonPath servicePath : String) (writeOk : Bool) (w : World) :
    Outcome × World × List Event :=
  if is_installed w then
    (.ok (.pyBool false), w, [Event.printed "* Already installed"])
  else
    let r := _install user pythonPath servicePath writeOk w
    let tr := Event.printed "* Installing" :: r.2.2
    match r.1 with
    | .raised m => (.raised m, r.2.1, tr)
    | .ok v =>
      if v.truthy then (.ok .pyNone, r.2.1, tr)
      else (.ok (.pyBool false), r.2.1, tr)

/-- `_uninstall` (linux.py:411-430). Raises `RuntimeError` when not root
(linux.py:419-421); otherwise removes the control script inside a try,
returning `False` if the removal fails (`removeOk` oracle) and `True`
otherwise. -/
def _uninstall (removeOk : Bool) (w : World) : Outcome × World × List Event :=
  if w.uid ≠ 0 then
    (.raised privilegeMsg, w, [])
  else if removeOk then
    (.ok (.pyBool true), { w with controlScript := none }, [Event.removeScript])
  else
    (.ok (.pyBool false), w,
     [Event.printed "* Unable to uninstall, failed to remove control script"])

/-- The tail of `uninstall` after its guards (linux.py:241-248): print,
delegate to `_uninstall`, call the no-op `uninstalled` hook and return the
(`True`) result. -/
def uninstallRest (removeOk : Bool) (w : World) : Outcome × World × List Event :=
  let r := _uninstall removeOk w
  let tr := Event.printed "* Uninstalling" :: r.2.2
  match r.1 with
  | .raised m => (.raised m, r.2.1, tr)
  | .ok v =>
    if v.truthy then (.ok v, r.2.1, tr) else (.ok (.pyBool false), r.2.1, tr)

/-- `uninstall` (linux.py:223-248): guard on `is_installed`; when running,
`stop` first and abort on its failure; then the `_uninstall` tail. -/
def uninstall (kill : Nat → KillResult) (removeOk : Bool) (w : World) :
    Outcome × World × List Event :=
  if is_installed w then
    if is_running w then
      let r := stop kill w
      match r.1 with
      | .raised m => (.raised m, r.2.1, r.2.2)
      | .ok v =>
        if v.truthy then
          let r2 := uninstallRest removeOk r.2.1
          (r2.1, r2.2.1, r.2.2 ++ r2.2.2)
        else
          (.ok (.pyBool false), r.2.1, r.2.2)
    else
      uninstallRest removeOk w
  else
    (.ok (.pyBool false), w, [Event.printed "* Not installed"])

/-- `_start` (linux.py:250-303): double fork (each fork failure prints and
returns `False` with nothing mutated), then the PID file is written — the
first and only state mutation, happening after both forks succeeded; a
write failure prints and returns `False`. The stream redirection that
follows touches no modelled state. -/
def _start (fork1 fork2 : ForkResult) (writeOk : Bool) (selfPid : Nat) (w : World) :
    Bool × World × List Event :=
  match fork1 with
  | .failed _ => (false, w, [Event.printed "* Unable to fork parent process (1)"])
  | .child =>
    match fork2 with
    | .failed _ => (false, w, [Event.printed "* Unable to fork parent process (2)"])
    | .child =>
      if writeOk then
        (true, { w with pidFile := some (some selfPid) }, [Event.writePid selfPid])
      else
        (false, w, [Event.printed "* Unable to write PID file"])

/-- `start` (linux.py:154-179): guard on `is_installed` (printing
"* Not Installed" and returning `False`), guard on `is_running`, print,
delegate to `_start`, then run the user callback via `self.started(user)`
(modelled as returning normally) and return `True`. -/
def start (fork1 fork2 : ForkResult) (writeOk : Bool) (selfPid : Nat) (_user : String)
    (w : World) : Outcome × World × List Event :=
  if is_installed w then
    if is_running w then
      (.ok (.pyBool false), w, [Event.printed "* Already running"])
    else
      let r := _start fork1 fork2 writeOk selfPid w
      let tr := Event.printed "* Starting" :: r.2.2
      if r.1 then
        (.ok (.pyBool true), r.2.1, tr ++ [Event.ranCallback])
      else
        (.ok (.pyBool false), r.2.1, tr)
  else
    (.ok (.pyBool false), w, [Event.printed "* Not Installed"])

/-- `WindowsService.SvcStop` (windows.py:69-74), as the sequence of actions
it performs in program order: report `SERVICE_STOP_PENDING`, set the stop
event, and only then write `self.stop_requested = True`. -/
def svcStopTrace : List Event :=
  [Event.reportStatus "SERVICE_STOP_PENDING", Event.setEvent, Event.setStopRequested]

/-- `a` occurs strictly before some occurrence of `b` in the list. -/
def precedesIn (a b : Event) : List Event → Bool
  | [] => false
  | x :: xs => (x == a && xs.contains b) || precedesIn a b xs

/-- `Event.kill _ _` recogniser, for counting signal attempts. -/
def isKillEvent : Event → Bool
  | Event.kill _ _ => true
  | _ => false

/-- `Event.writePid _` recogniser. -/
def isWritePidEvent : Event → Bool
  | Event.writePid _ => true
  | _ => false

/-- `Event.sleepMs 200` recogniser (the 0.2 s spacing of the kill loop). -/
def isSleep200Event : Event → Bool
  | Event.sleepMs ms => ms == 200
  | _ => false

/-- Number of `os.kill` calls recorded in a trace. -/
def countKills (tr : List Event) : Nat :=
  (tr.filter isKillEvent).length

/-- Number of 0.2 s sleeps recorded in a trace. This equals the final value
of the `attempts` counter of the kill loop, since `attempts` is incremented
exactly once per completed (kill, sleep) iteration. -/
def countSleeps200 (tr : List Event) : Nat :=
  (tr.filter isSleep200Event).length

/-- A fresh world: nothing installed, nothing running, root caller. -/
def w0 : World :=
  { controlScript := none, pidFile := none, uid := 0, stop_requested := false }

/-- A sample installed control script. -/
def sampleScript : ScriptContent :=
  { user := "alice", pythonPath := "/usr/bin/python3", servicePath := "/srv/app.py",
    executable := true }

/-- Installed, not running, root caller. -/
def wInstalled : World :=
  { controlScript := some sampleScript, pidFile := none, uid := 0, stop_requested := false }

/-- Installed and running (PID file parses to 4242), root caller. -/
def wRunning : World :=
  { controlScript := some sampleScript, pidFile := some (some 4242), uid := 0,
    stop_requested := false }

/-- Nothing installed, non-root caller (uid 1000). -/
def wNonRoot : World :=
  { controlScript := none, pidFile := none, uid := 1000, stop_requested := false }

/-- Installed, not running, non-root caller (uid 1000). -/
def wNonRootInstalled : World :=
  { controlScript := some sampleScript, pidFile := none, uid := 1000,
    stop_requested := false }

/-- Installed and running (PID file parses to 4242), non-root caller
(uid 1000). -/
def wNonRootRunning : World :=
  { controlScript := some sampleScript, pidFile := some (some 4242), uid := 1000,
    stop_requested := false }

theorem countKills_cons_kill (pid a : Nat) (tr : List Event) :
    countKills (Event.kill pid a :: tr) = countKills tr + 1 := by
  simp [countKills, isKillEvent]

theorem countKills_cons_other (x : Event) (tr : List Event) (hx : isKillEvent x = false) :
    countKills (x :: tr) = countKills tr := by
  simp [countKills, hx]

theorem countSleeps200_cons_sleep (tr : List Event) :
    countSleeps200 (Event.sleepMs 200 :: tr) = countSleeps200 tr + 1 := by
  simp [countSleeps200, isSleep200Event]

theorem countSleeps200_cons_other (x : Event) (tr : List Event)
    (hx : isSleep200Event x = false) :
    countSleeps200 (x :: tr) = countSleeps200 tr := by
  simp [countSleeps200, hx]

theorem killLoopAux_trace_head (kill : Nat → KillResult) (pid fuel a : Nat) :
    ((killLoopAux kill pid (fuel + 1) a).2).head? = some (Event.kill pid a) := by
  cases h : kill a <;> simp [killLoopAux, h]

theorem killLoop_trace_head (kill : Nat → KillResult) (pid : Nat) :
    ((killLoop kill pid).2).head? = some (Event.kill pid 0) := by
  have h := killLoopAux_trace_head kill pid 4 0
  norm_num at h
  simpa [killLoop] using h

theorem killLoopAux_false_of_no_esrch (kill : Nat → KillResult) (pid : Nat)
    (hk : ∀ i, kill i ≠ KillResult.noSuchProcess) :
    ∀ fuel a, (killLoopAux kill pid fuel a).1 = false := by
  intro fuel
  induction fuel with
  | zero => intro a; simp [killLoopAux]
  | succ n ih =>
    intro a
    cases h : kill a with
    | delivered => simp [killLoopAux, h, ih]
    | noSuchProcess => exact absurd h (hk a)
    | otherOSError => simp [killLoopAux, h]

theorem killLoopAux_countKills_delivered (kill : Nat → KillResult) (pid : Nat)
    (hk : ∀ i, kill i = KillResult.delivered) :
    ∀ fuel a, countKills (killLoopAux kill pid fuel a).2 = fuel := by
  intro fuel
  induction fuel with
  | zero => intro a; simp [killLoopAux, countKills, isKillEvent]
  | succ n ih =>
    intro a
    simp only [killLoopAux, hk a]
    rw [countKills_cons_kill, countKills_cons_other (Event.sleepMs 200) _ rfl, ih]

theorem killLoopAux_countSleeps_delivered (kill : Nat → KillResult) (pid : Nat)
    (hk : ∀ i, kill i = KillResult.delivered) :
    ∀ fuel a, countSleeps200 (killLoopAux kill pid fuel a).2 = fuel := by
  intro fuel
  induction fuel with
  | zero => intro a; simp [killLoopAux, countSleeps200, isSleep200Event]
  | succ n ih =>
    intro a
    simp only [killLoopAux, hk a]
    rw [countSleeps200_cons_other (Event.kill pid a) _ rfl, countSleeps200_cons_sleep, ih]

theorem _stop_parsed (kill : Nat → KillResult) (w : World) (pid : Nat)
    (h : w.pidFile = some (some pid)) :
    _stop kill w =
      (Outcome.ok (PyVal.pyBool (killLoop kill pid).1),
       { w with stop_requested := true, pidFile := none },
       Event.removePid :: (killLoop kill pid).2) := by
  simp [_stop, h]

theorem stop_parsed (kill : Nat → KillResult) (w : World) (pid : Nat)
    (h : w.pidFile = some (some pid)) :
    stop kill w =
      (Outcome.ok (PyVal.pyBool (killLoop kill pid).1),
       { w with stop_requested := true, pidFile := none },
       Event.printed "* Stopping" :: Event.removePid :: (killLoop kill pid).2) := by
  have hr : is_running w = true := by simp [is_running, h]
  cases hb : (killLoop kill pid).1 <;>
    simp [stop, hr, _stop_parsed kill w pid h, hb, PyVal.truthy]

/-- Claim C1: a successful `install` (control script absent, root caller,
script write succeeds, default `installed` hook) is claimed to return
`True`; evaluating the code at exactly that input shows it returns `None`
(the value of the default `installed()` hook), which is falsy, so the
surrounding CLI exits non-zero on a successful install — contradicting the
method docstring "True when successful and False otherwise". -/
theorem c1_install_success_returns_none :
    (install "alice" "/usr/bin/python3" "/srv/app.py" true w0).1 = Outcome.ok PyVal.pyNone ∧
    PyVal.truthy PyVal.pyNone = false ∧
    (install "alice" "/usr/bin/python3" "/srv/app.py" true w0).1 ≠
      Outcome.ok (PyVal.pyBool true) := by
  decide

/-- Claim C2, counterexample: with a target whose every `os.kill` raises an
`OSError` other than "No such process" (so no "no such process" error is
ever reported, i.e. the process never dies in the sense of the claim), the
kill loop makes exactly one signal attempt, not five, before returning
failure — refuting "exhausts its budget of 5 signal attempts". -/
theorem c2_counterexample :
    (_stop (fun _ => KillResult.otherOSError) wRunning).1 = Outcome.ok (PyVal.pyBool false) ∧
    countKills (_stop (fun _ => KillResult.otherOSError) wRunning).2.2 = 1 ∧
    countKills (_stop (fun _ => KillResult.otherOSError) wRunning).2.2 ≠ 5 := by
  decide

/-- Claim C2 (amended): whenever no "no such process" error is ever
reported during signaling, `_stop` returns failure, never success; and when
additionally every signal delivery succeeds (no OS error at all), it
exhausts its full budget of exactly 5 signal attempts at 0.2 s spacing. -/
theorem c2_no_esrch_reports_failure (kill : Nat → KillResult) (w : World) (pid : Nat)
    (h : w.pidFile = some (some pid)) (hk : ∀ i, kill i ≠ KillResult.noSuchProcess) :
    (_stop kill w).1 = Outcome.ok (PyVal.pyBool false) ∧
    ((∀ i, kill i = KillResult.delivered) →
      countKills (_stop kill w).2.2 = 5 ∧ countSleeps200 (_stop kill w).2.2 = 5) := by
  have hf : (killLoop kill pid).1 = false :=
    killLoopAux_false_of_no_esrch kill pid hk 5 0
  constructor
  · rw [_stop_parsed kill w pid h, hf]
  · intro hd
    rw [_stop_parsed kill w pid h]
    constructor
    · rw [countKills_cons_other Event.removePid _ rfl]
      exact killLoopAux_countKills_delivered kill pid hd 5 0
    · rw [countSleeps200_cons_other Event.removePid _ rfl]
      exact killLoopAux_countSleeps_delivered kill pid hd 5 0

/-- Witness for C2's amended theorem at a concrete input: all five signals
delivered, none reporting "no such process". -/
theorem c2_witness :
    (_stop (fun _ => KillResult.delivered) wRunning).1 = Outcome.ok (PyVal.pyBool false) ∧
    countKills (_stop (fun _ => KillResult.delivered) wRunning).2.2 = 5 ∧
    countSleeps200 (_stop (fun _ => KillResult.delivered) wRunning).2.2 = 5 := by
  have h := c2_no_esrch_reports_failure (fun _ => KillResult.delivered) wRunning 4242
      rfl (fun _ h => KillResult.noConfusion h)
  exact ⟨h.1, h.2 (fun _ => rfl)⟩

/-- Claim C3: in every `stop` whose PID file exists and parses, the trace is
the status print, then the PID-file removal, then the kill loop's events;
the removal strictly precedes the first termination signal (which is the
very next event), and a signal follows it, so the removal is never the last
action of the stop. -/
theorem c3_pid_removed_before_first_signal (kill : Nat → KillResult) (w : World)
    (pid : Nat) (h : w.pidFile = some (some pid)) :
    (stop kill w).2.2 =
      Event.printed "* Stopping" :: Event.removePid :: (killLoop kill pid).2 ∧
    ((killLoop kill pid).2).head? = some (Event.kill pid 0) := by
  refine ⟨?_, killLoop_trace_head kill pid⟩
  rw [stop_parsed kill w pid h]

/-- Witness for C3 at a concrete input. -/
theorem c3_witness :
    (stop (fun _ => KillResult.delivered) wRunning).2.2 =
      Event.printed "* Stopping" :: Event.removePid ::
        (killLoop (fun _ => KillResult.delivered) 4242).2 ∧
    ((killLoop (fun _ => KillResult.delivered) 4242).2).head? =
      some (Event.kill 4242 0) :=
  c3_pid_removed_before_first_signal (fun _ => KillResult.delivered) wRunning 4242 rfl

/-- Claim C5: when the first signal is delivered and the target is dead by
the next `os.kill` (which then reports "no such process"), `_stop` reports
success with the loop's `attempts` counter at 1 — one completed
(signal, 0.2 s sleep) iteration. -/
theorem c5_immediate_exit_success_one_attempt (kill : Nat → KillResult) (w : World)
    (pid : Nat) (h : w.pidFile = some (some pid))
    (h0 : kill 0 = KillResult.delivered) (h1 : kill 1 = KillResult.noSuchProcess) :
    (_stop kill w).1 = Outcome.ok (PyVal.pyBool true) ∧
    countSleeps200 (_stop kill w).2.2 = 1 := by
  have hl : killLoop kill pid =
      (true, [Event.kill pid 0, Event.sleepMs 200, Event.kill pid 1]) := by
    simp [killLoop, killLoopAux, h0, h1]
  rw [_stop_parsed kill w pid h, hl]
  exact ⟨rfl, by simp [countSleeps200, isSleep200Event]⟩

/-- Witness for C5 at a concrete input. -/
theorem c5_witness :
    (_stop (fun i => if i == 0 then KillResult.delivered else KillResult.noSuchProcess)
      wRunning).1 = Outcome.ok (PyVal.pyBool true) ∧
    countSleeps200
      (_stop (fun i => if i == 0 then KillResult.delivered else KillResult.noSuchProcess)
        wRunning).2.2 = 1 :=
  c5_immediate_exit_success_one_attempt
    (fun i => if i == 0 then KillResult.delivered else KillResult.noSuchProcess)
    wRunning 4242 rfl rfl rfl

/-- Claim C4, counterexample: for a non-root caller (uid 1000), `install`
on a not-installed service and `uninstall` on an installed service do not
return a failed-operation result — the privilege failure surfaces as an
uncaught `RuntimeError` propagating out of the lifecycle operation; and on
an installed running service whose stop fails, a non-root `uninstall` does
not fail with the privilege error at all: it returns `False` from the
failed preliminary stop, having already removed the PID file (state
mutated, no privilege error). -/
theorem c4_counterexample :
    (install "alice" "/usr/bin/python3" "/srv/app.py" true wNonRoot).1 =
      Outcome.raised privilegeMsg ∧
    (install "alice" "/usr/bin/python3" "/srv/app.py" true wNonRoot).1 ≠
      Outcome.ok (PyVal.pyBool false) ∧
    (uninstall (fun _ => KillResult.delivered) true wNonRootInstalled).1 =
      Outcome.raised privilegeMsg ∧
    (uninstall (fun _ => KillResult.delivered) true wNonRootInstalled).1 ≠
      Outcome.ok (PyVal.pyBool false) ∧
    (uninstall (fun _ => KillResult.delivered) true wNonRootRunning).1 =
      Outcome.ok (PyVal.pyBool false) ∧
    (uninstall (fun _ => KillResult.delivered) true wNonRootRunning).1 ≠
      Outcome.raised privilegeMsg ∧
    (uninstall (fun _ => KillResult.delivered) true wNonRootRunning).2.1.pidFile = none ∧
    wNonRootRunning.pidFile ≠ none := by
  decide

/-- Claim C4 (amended): for every caller without superuser identity,
`install` on a not-installed service and `uninstall` on an installed,
not-running service fail with an explicit privilege `RuntimeError` that
propagates out of the enclosing lifecycle operation as an uncaught
exception — not a `False` return — and mutate no state. On an installed,
running service, a non-root `uninstall` first performs the stop, which
removes the PID file before the privilege check is ever reached: when the
stop's signaling fails, `uninstall` returns `False` with no privilege
error at all; when the stop succeeds, the privilege `RuntimeError` is then
raised with the PID file already removed. -/
theorem c4_nonroot_privilege_error_raises (user pythonPath servicePath : String)
    (writeOk removeOk : Bool) (kill kill3 : Nat → KillResult) (sc sc3 : ScriptContent)
    (pid : Nat) (w w2 w3 : World)
    (hu : w.uid ≠ 0) (hs : w.controlScript = none)
    (hu2 : w2.uid ≠ 0) (hs2 : w2.controlScript = some sc) (hr2 : w2.pidFile = none)
    (hu3 : w3.uid ≠ 0) (hs3 : w3.controlScript = some sc3)
    (hp3 : w3.pidFile = some (some pid)) :
    (install user pythonPath servicePath writeOk w).1 = Outcome.raised privilegeMsg ∧
    (install user pythonPath servicePath writeOk w).2.1 = w ∧
    (uninstall kill removeOk w2).1 = Outcome.raised privilegeMsg ∧
    (uninstall kill removeOk w2).2.1 = w2 ∧
    ((killLoop kill3 pid).1 = false →
      (uninstall kill3 removeOk w3).1 = Outcome.ok (PyVal.pyBool false) ∧
      (uninstall kill3 removeOk w3).2.1.pidFile = none) ∧
    ((killLoop kill3 pid).1 = true →
      (uninstall kill3 removeOk w3).1 = Outcome.raised privilegeMsg ∧
      (uninstall kill3 removeOk w3).2.1.pidFile = none) := by
  have hi3 : is_installed w3 = true := by simp [is_installed, hs3]
  have hr3 : is_running w3 = true := by simp [is_running, hp3]
  refine ⟨?_, ?_, ?_, ?_, ?_, ?_⟩
  · simp [install, is_installed, hs, _install, hu]
  · simp [install, is_installed, hs, _install, hu]
  · simp [uninstall, uninstallRest, _uninstall, is_installed, is_running, hs2, hr2, hu2]
  · simp [uninstall, uninstallRest, _uninstall, is_installed, is_running, hs2, hr2, hu2]
  · intro hb
    have hs' := stop_parsed kill3 w3 pid hp3
    rw [hb] at hs'
    exact ⟨by simp [uninstall, hi3, hr3, hs', PyVal.truthy],
           by simp [uninstall, hi3, hr3, hs', PyVal.truthy]⟩
  · intro hb
    have hs' := stop_parsed kill3 w3 pid hp3
    rw [hb] at hs'
    exact ⟨by simp [uninstall, hi3, hr3, hs', PyVal.truthy, uninstallRest, _uninstall, hu3],
           by simp [uninstall, hi3, hr3, hs', PyVal.truthy, uninstallRest, _uninstall, hu3]⟩

/-- Witness for C4's amended theorem at concrete non-root worlds, covering
the not-installed install, the not-running uninstall, and both running
uninstall branches (failed stop: every signal delivered, the loop exhausts
its budget; successful stop: the first kill reports "no such process"). -/
theorem c4_witness :
    (install "bob" "/usr/bin/python3" "/srv/app.py" false wNonRoot).1 =
      Outcome.raised privilegeMsg ∧
    (install "bob" "/usr/bin/python3" "/srv/app.py" false wNonRoot).2.1 = wNonRoot ∧
    (uninstall (fun _ => KillResult.delivered) false wNonRootInstalled).1 =
      Outcome.raised privilegeMsg ∧
    (uninstall (fun _ => KillResult.delivered) false wNonRootInstalled).2.1 =
      wNonRootInstalled ∧
    (uninstall (fun _ => KillResult.delivered) false wNonRootRunning).1 =
      Outcome.ok (PyVal.pyBool false) ∧
    (uninstall (fun _ => KillResult.delivered) false wNonRootRunning).2.1.pidFile = none ∧
    (uninstall (fun _ => KillResult.noSuchProcess) false wNonRootRunning).1 =
      Outcome.raised privilegeMsg ∧
    (uninstall (fun _ => KillResult.noSuchProcess) false wNonRootRunning).2.1.pidFile =
      none := by
  have h1 := c4_nonroot_privilege_error_raises "bob" "/usr/bin/python3" "/srv/app.py"
      false false (fun _ => KillResult.delivered) (fun _ => KillResult.delivered)
      sampleScript sampleScript 4242 wNonRoot wNonRootInstalled wNonRootRunning
      (by decide) rfl (by decide) rfl rfl (by decide) rfl rfl
  have h2 := c4_nonroot_privilege_error_raises "bob" "/usr/bin/python3" "/srv/app.py"
      false false (fun _ => KillResult.delivered) (fun _ => KillResult.noSuchProcess)
      sampleScript sampleScript 4242 wNonRoot wNonRootInstalled wNonRootRunning
      (by decide) rfl (by decide) rfl rfl (by decide) rfl rfl
  exact ⟨h1.1, h1.2.1, h1.2.2.1, h1.2.2.2.1,
         (h1.2.2.2.2.1 (by decide)).1, (h1.2.2.2.2.1 (by decide)).2,
         (h2.2.2.2.2.2 (by decide)).1, (h2.2.2.2.2.2 (by decide)).2⟩

/-- Claim C6: in the daemonization sequence, if either fork fails, `start`
returns failure, the world is unchanged (in particular no PID file was
created), and no PID-write event appears in the trace — the PID record is
written only after both forks succeed. -/
theorem c6_fork_failure_mutates_nothing (fork1 fork2 : ForkResult) (writeOk : Bool)
    (selfPid : Nat) (user : String) (w : World)
    (hf : fork1 ≠ ForkResult.child ∨ fork2 ≠ ForkResult.child)
    (hi : is_installed w = true) (hr : is_running w = false) :
    (start fork1 fork2 writeOk selfPid user w).1 = Outcome.ok (PyVal.pyBool false) ∧
    (start fork1 fork2 writeOk selfPid user w).2.1 = w ∧
    (start fork1 fork2 writeOk selfPid user w).2.2.any isWritePidEvent = false := by
  rcases fork1 with _ | m
  · rcases fork2 with _ | m
    · simp at hf
    · refine ⟨?_, ?_, ?_⟩ <;> simp [start, _start, hi, hr, isWritePidEvent]
  · refine ⟨?_, ?_, ?_⟩ <;> simp [start, _start, hi, hr, isWritePidEvent]

/-- Witness for C6 at a concrete input: the first fork fails. -/
theorem c6_witness :
    (start (ForkResult.failed "EAGAIN") ForkResult.child true 7 "alice" wInstalled).1 =
      Outcome.ok (PyVal.pyBool false) ∧
    (start (ForkResult.failed "EAGAIN") ForkResult.child true 7 "alice" wInstalled).2.1 =
      wInstalled ∧
    (start (ForkResult.failed "EAGAIN") ForkResult.child true 7 "alice"
      wInstalled).2.2.any isWritePidEvent = false :=
  c6_fork_failure_mutates_nothing (ForkResult.failed "EAGAIN") ForkResult.child true 7
    "alice" wInstalled (Or.inl (by decide)) rfl rfl

/-- Claim C7: `start` on a service with no control script fails (printing
"* Not Installed" and returning `False`) and leaves the world — in
particular the PID path — untouched: the whole call is the failure result,
the unchanged world, and the single status print. -/
theorem c7_start_not_installed (fork1 fork2 : ForkResult) (writeOk : Bool)
    (selfPid : Nat) (user : String) (w : World) (h : w.controlScript = none) :
    start fork1 fork2 writeOk selfPid user w =
      (Outcome.ok (PyVal.pyBool false), w, [Event.printed "* Not Installed"]) := by
  simp [start, is_installed, h]

/-- Witness for C7 at a concrete input (the spec's "worker" scenario: not
installed, then `start` fails and no PID file is created). -/
theorem c7_witness :
    start ForkResult.child ForkResult.child true 7 "alice" w0 =
      (Outcome.ok (PyVal.pyBool false), w0, [Event.printed "* Not Installed"]) :=
  c7_start_not_installed ForkResult.child ForkResult.child true 7 "alice" w0 rfl

theorem uninstallRest_ok_true (removeOk : Bool) (w : World)
    (h : (uninstallRest removeOk w).1 = Outcome.ok (PyVal.pyBool true)) :
    is_installed (uninstallRest removeOk w).2.1 = false := by
  by_cases hu : w.uid = 0
  · by_cases hr : removeOk
    · simp [uninstallRest, _uninstall, hu, hr, is_installed, PyVal.truthy]
    · simp [uninstallRest, _uninstall, hu, hr, PyVal.truthy] at h
  · simp [uninstallRest, _uninstall, hu] at h

/-- Claim C8: (a) every `install` that runs to the success path (returning
the default hook value `None`) leaves the control script on disk, so
`is_installed` recomputes to true; (b) every `uninstall` that returns
`True` has removed the control script, so `is_installed` recomputes to
false. -/
theorem c8_install_uninstall_installed_flag :
    (∀ (user pythonPath servicePath : String) (writeOk : Bool) (w : World),
      (install user pythonPath servicePath writeOk w).1 = Outcome.ok PyVal.pyNone →
      is_installed (install user pythonPath servicePath writeOk w).2.1 = true) ∧
    (∀ (kill : Nat → KillResult) (removeOk : Bool) (w : World),
      (uninstall kill removeOk w).1 = Outcome.ok (PyVal.pyBool true) →
      is_installed (uninstall kill removeOk w).2.1 = false) := by
  constructor
  · intro user pythonPath servicePath writeOk w hok
    by_cases hi : is_installed w = true
    · simp [install, hi] at hok
    · by_cases hu : w.uid = 0
      · by_cases hw : writeOk
        · have hic : w.controlScript.isSome = false := by
            cases hcs : is_installed w
            · exact hcs
            · exact absurd hcs hi
          simp [install, _install, hu, hw, hic, PyVal.truthy, is_installed]
        · simp [install, hi, _install, hu, hw] at hok
      · simp [install, hi, _install, hu] at hok
  · intro kill removeOk w hok
    by_cases hi : is_installed w = true
    · by_cases hr : is_running w = true
      · obtain ⟨c, hc⟩ : ∃ c, w.pidFile = some c := by
          cases hpf : w.pidFile
          · simp [is_running, hpf] at hr
          · exact ⟨_, rfl⟩
        cases c with
        | none =>
          simp [uninstall, hi, hr, stop, _stop, hc, PyVal.truthy] at hok
        | some pid =>
          have hs := stop_parsed kill w pid hc
          cases hb : (killLoop kill pid).1 with
          | false =>
            rw [hb] at hs
            simp [uninstall, hi, hr, hs, PyVal.truthy] at hok
          | true =>
            rw [hb] at hs
            simp only [uninstall, hi, hr, hs, PyVal.truthy, if_true] at hok ⊢
            exact uninstallRest_ok_true removeOk _ hok
      · have hr' : is_running w = false := by
          cases hvr : is_running w
          · rfl
          · exact absurd hvr hr
        simp only [uninstall, hi, hr', Bool.false_eq_true, if_true, if_false] at hok ⊢
        exact uninstallRest_ok_true removeOk w hok
    · simp [uninstall, hi] at hok

/-- Witness for C8 at concrete inputs: a fresh root world installed, and an
installed root world uninstalled. -/
theorem c8_witness :
    is_installed (install "alice" "/usr/bin/python3" "/srv/app.py" true w0).2.1 = true ∧
    is_installed (uninstall (fun _ => KillResult.delivered) true wInstalled).2.1 = false := by
  constructor
  · exact c8_install_uninstall_installed_flag.1 "alice" "/usr/bin/python3" "/srv/app.py"
      true w0 (by decide)
  · exact c8_install_uninstall_installed_flag.2 (fun _ => KillResult.delivered) true
      wInstalled (by decide)

/-- Claim C9, counterexample: in the `SvcStop` handler's action sequence
both the flag write and the event signal occur, but the `stop_requested`
flag write does not precede the `SetEvent` call — the code signals the
event first (windows.py:73) and writes the flag after (windows.py:74). -/
theorem c9_counterexample :
    svcStopTrace.contains Event.setStopRequested = true ∧
    svcStopTrace.contains Event.setEvent = true ∧
    precedesIn Event.setStopRequested Event.setEvent svcStopTrace = false := by
  decide

/-- Claim C9 (amended): on every stop request the handler first reports
`SERVICE_STOP_PENDING`, then signals the stop event, and only then writes
the `stop_requested` flag — the event signal precedes the flag write (the
control thread is woken by polling the flag in a 1 s sleep loop, not by
waiting on the event). -/
theorem c9_event_signaled_before_flag :
    precedesIn Event.setEvent Event.setStopRequested svcStopTrace = true ∧
    svcStopTrace.head? = some (Event.reportStatus "SERVICE_STOP_PENDING") := by
  decide

/-- Claim C10: every `stop` whose PID file exists and parses removes the
PID file unconditionally — whatever the signaling outcomes — so afterwards
`is_running` is false and a retried `stop` fails with the "Not running"
guard; and when every signal is delivered without error (the daemon never
dies), the first `stop` itself returns failure while the PID file is
nevertheless gone. -/
theorem c10_stop_removes_pid_unconditionally (kill kill2 : Nat → KillResult)
    (w : World) (pid : Nat) (h : w.pidFile = some (some pid)) :
    (stop kill w).2.1.pidFile = none ∧
    is_running (stop kill w).2.1 = false ∧
    (stop kill2 (stop kill w).2.1).1 = Outcome.ok (PyVal.pyBool false) ∧
    ((∀ i, kill i = KillResult.delivered) →
      (stop kill w).1 = Outcome.ok (PyVal.pyBool false)) := by
  have hs := stop_parsed kill w pid h
  refine ⟨by rw [hs], by rw [hs]; simp [is_running], ?_, ?_⟩
  · rw [hs]
    simp [stop, is_running]
  · intro hd
    have hf : (killLoop kill pid).1 = false :=
      killLoopAux_false_of_no_esrch kill pid
        (fun i => by rw [hd i]; exact fun hc => KillResult.noConfusion hc) 5 0
    rw [hs, hf]

/-- Witness for C10 at a concrete input: the daemon ignores every signal,
the stop fails, yet the PID file is gone and the retry fails cleanly. -/
theorem c10_witness :
    (stop (fun _ => KillResult.delivered) wRunning).2.1.pidFile = none ∧
    is_running (stop (fun _ => KillResult.delivered) wRunning).2.1 = false ∧
    (stop (fun _ => KillResult.delivered)
      (stop (fun _ => KillResult.delivered) wRunning).2.1).1 =
      Outcome.ok (PyVal.pyBool false) ∧
    (stop (fun _ => KillResult.delivered) wRunning).1 =
      Outcome.ok (PyVal.pyBool false) := by
  have h := c10_stop_removes_pid_unconditionally (fun _ => KillResult.delivered)
      (fun _ => KillResult.delivered) wRunning 4242 rfl
  exact ⟨h.1, h.2.1, h.2.2.1, h.2.2.2 (fun _ => rfl)⟩

end Pyservice
